import Mathlib

/-! A shallow embedding of the backoff module of nameko-amqp-retry:
delay computation (attempt counting from the x-death history, schedule
lookup with clamping, Gaussian jitter, retry ceiling) and the republish
protocol (delay-queue construction, publish with the mandatory flag,
normalisation of routing failures into UndeliverableMessage and the
bounded retry around the publish).

Python integers are modelled by Nat/Int and Python floats by exact
rationals; the Gaussian sample drawn by random.gauss is an explicit
input, and broker/transport behaviour is an explicit environment
(one outcome per publish attempt). -/

/-- EXPIRY_GRACE_PERIOD: fixed grace period (ms) added to a delay
queue's auto-expiry. -/
def EXPIRY_GRACE_PERIOD : ℕ := 50000

/-- Deterministic delay-queue name, from get_backoff_queue_name. -/
def get_backoff_queue_name (expiration : ℕ) : String :=
  "backoff--" ++ toString expiration ++ "ms"

/-- Python's built-in round() with no digits: round half to even. -/
def pyRound (q : ℚ) : ℤ :=
  if q - ⌊q⌋ < 1/2 then ⌊q⌋
  else if 1/2 < q - ⌊q⌋ then ⌊q⌋ + 1
  else if ⌊q⌋ % 2 = 0 then ⌊q⌋ else ⌊q⌋ + 1

/-- Python's int() applied to a float: truncation toward zero. -/
def ratTrunc (q : ℚ) : ℤ := if 0 ≤ q then ⌊q⌋ else -⌊-q⌋

/-- round_to_nearest from the source:
int(interval * round(float(value) / interval)). -/
def round_to_nearest (value : ℤ) (interval : ℚ) : ℤ :=
  ratTrunc (interval * (pyRound ((value : ℚ) / interval) : ℚ))

/-- One record of the x-death delivery history: the exchange the message
was dead-lettered through, and the broker-recorded repeat count. -/
structure DeathRecord where
  exchange : String
  count : ℕ
  deriving DecidableEq

/-- The application headers of a message: the x-death history (none when
the header is absent), the backoff header, and all other headers, kept
opaque. -/
structure Headers where
  xdeath : Option (List DeathRecord)
  backoff : Option ℕ
  others : List (String × String)
  deriving DecidableEq

/-- The properties of a message: the application_headers entry (the
headers dict) and the remaining properties, kept opaque. -/
structure Properties where
  application_headers : Headers
  rest : List (String × String)
  deriving DecidableEq

/-- A message: opaque body plus properties. -/
structure Message where
  body : String
  properties : Properties
  deriving DecidableEq

/-- message.headers, i.e. the application_headers of the properties. -/
def Message.headers (m : Message) : Headers := m.properties.application_headers

/-- The class attributes of Backoff: schedule, limit, random_sigma and
random_groups_per_sigma (subclasses may override them). -/
structure BackoffPolicy where
  schedule : List ℕ
  limit : ℕ
  random_sigma : ℕ
  random_groups_per_sigma : ℕ
  deriving DecidableEq

/-- The default class attributes of Backoff. -/
def Backoff.default_policy : BackoffPolicy :=
  ⟨[10000, 20000, 30000, 50000, 80000, 130000, 210000, 240000, 350000,
    450000, 500000, 800000], 200, 100, 5⟩

/-- The mutable instance fields set by Backoff.__init__:
_total_attempts and _next_expiration, both initially None. -/
structure BackoffState where
  total_attempts : Option ℕ
  next_expiration : Option ℕ
  deriving DecidableEq

/-- The state set up by Backoff.__init__. -/
def Backoff.init_state : BackoffState := ⟨none, none⟩

/-- Backoff.get_next_schedule_item: schedule[index], falling back to
schedule[-1] when the index is past the end.  On an empty schedule the
Python code raises IndexError (the spec requires a non-empty schedule);
here the defaulted accessors return 0 in that unreachable case, and the
theorems assume a non-empty schedule. -/
def Backoff.get_next_schedule_item (p : BackoffPolicy) (index : ℕ) : ℕ :=
  if p.schedule.length ≤ index then p.schedule.getLastD 0
  else p.schedule.getD index 0

/-- Backoff.max_delay: sum of get_next_schedule_item(index) for index in
range(limit). -/
def Backoff.max_delay (p : BackoffPolicy) : ℕ :=
  ((List.range p.limit).map (Backoff.get_next_schedule_item p)).sum

/-- The attempt-counting loop at the top of Backoff.next: starting from
0, add int(record count) for every x-death record whose exchange equals
backoff_exchange_name; an absent x-death header means no records. -/
def Backoff.total_attempts (msg : Message) (backoff_exchange_name : String) : ℕ :=
  (msg.headers.xdeath.getD []).foldl
    (fun acc r => if r.exchange = backoff_exchange_name then acc + r.count else acc) 0

/-- The message of the Expired error raised by Backoff.next, built with
str.format: the limit, and max_delay converted to seconds and formatted
with one {:.0f} placeholder (rounds half to even). -/
def Backoff.expired_message (p : BackoffPolicy) : String :=
  "Backoff aborted after \x27" ++ toString p.limit ++ "\x27 retries (~"
    ++ toString (pyRound ((Backoff.max_delay p : ℚ) / 1000)) ++ " seconds)"

/-- The data carried by the raised Backoff.Expired error: its message
string, and (via six.raise_from) the triggering Backoff instance as the
cause, modelled as the instance's policy and state. -/
structure ExpiredInfo where
  message : String
  cause_policy : BackoffPolicy
  cause_state : BackoffState
  deriving DecidableEq

/-- The expiration value computed by Backoff.next once the ceiling check
has passed: the schedule item for the attempt count; when random_sigma
is non-zero it is replaced by round_to_nearest applied to the truncated
Gaussian sample with interval random_sigma / random_groups_per_sigma;
finally abs() removes any negative value created by randomness. -/
def Backoff.next_value (p : BackoffPolicy) (sample : ℚ) (msg : Message)
    (backoff_exchange_name : String) : ℕ :=
  (if p.random_sigma ≠ 0 then
     round_to_nearest (ratTrunc sample)
       ((p.random_sigma : ℚ) / (p.random_groups_per_sigma : ℚ))
   else
     (Backoff.get_next_schedule_item p
        (Backoff.total_attempts msg backoff_exchange_name) : ℤ)).natAbs

/-- Backoff.next: count the attempts recorded in the x-death history for
the backoff exchange; if a non-zero limit is reached, raise Expired
(message from expired_message, cause the instance itself); otherwise
compute the (possibly jittered) expiration, store the attempt count and
the expiration on the instance, and return the expiration.  The
Gaussian sample of random.gauss is the explicit input sample. -/
def Backoff.next (p : BackoffPolicy) (sample : ℚ) (st : BackoffState)
    (msg : Message) (backoff_exchange_name : String) :
    Except ExpiredInfo (ℕ × BackoffState) :=
  if p.limit ≠ 0 ∧ p.limit ≤ Backoff.total_attempts msg backoff_exchange_name then
    .error ⟨Backoff.expired_message p, p, st⟩
  else
    .ok (Backoff.next_value p sample msg backoff_exchange_name,
         ⟨some (Backoff.total_attempts msg backoff_exchange_name),
          some (Backoff.next_value p sample msg backoff_exchange_name)⟩)

/-- The instance state after one call of Backoff.next: the stored fields
on success, the unchanged previous state when Expired is raised (the
raise happens before the assignments to the instance fields). -/
def Backoff.next_state (p : BackoffPolicy) (sample : ℚ) (st : BackoffState)
    (msg : Message) (backoff_exchange_name : String) : BackoffState :=
  match Backoff.next p sample st msg backoff_exchange_name with
  | .ok (_, st') => st'
  | .error _ => st

/-- Backoff.__str__: either the retry/delay rendering from the stored
fields, or the explicit uninitialised rendering when _next_expiration is
still None.  (With _next_expiration set but _total_attempts None the
Python code would raise a TypeError; that combination is never produced
by next, and is rendered here as an empty inner string.) -/
def Backoff.str (st : BackoffState) : String :=
  "Backoff(" ++
    (match st.next_expiration, st.total_attempts with
     | some e, some t => "retry #" ++ toString (t + 1) ++ " in " ++ toString e ++ "ms"
     | some _, none => ""
     | none, _ => "uninitialised") ++ ")"

/-- A kombu Exchange as the source constructs it: a type and a name. -/
structure ExchangeDef where
  type : String
  name : String
  deriving DecidableEq

/-- A value appearing in binding or queue arguments. -/
inductive ArgValue where
  | num (n : ℕ)
  | str (s : String)
  deriving DecidableEq

/-- A kombu Queue as the source constructs it: name, bound exchange,
binding arguments and queue arguments. -/
structure QueueDef where
  name : String
  exchange : ExchangeDef
  binding_arguments : List (String × ArgValue)
  queue_arguments : List (String × ArgValue)
  deriving DecidableEq

/-- BackoffPublisher.exchange: the shared headers-type exchange named
backoff. -/
def BackoffPublisher.exchange : ExchangeDef := ⟨"headers", "backoff"⟩

/-- BackoffPublisher.make_queue: the delay queue for one expiration,
named by get_backoff_queue_name, bound to the shared backoff exchange
with binding arguments backoff = expiration and x-match = any, and with
queue arguments x-expires = expiration + EXPIRY_GRACE_PERIOD and
x-dead-letter-exchange = the empty string (the default exchange). -/
def BackoffPublisher.make_queue (expiration : ℕ) : QueueDef :=
  { name := get_backoff_queue_name expiration
    exchange := BackoffPublisher.exchange
    binding_arguments := [("backoff", .num expiration), ("x-match", .str "any")]
    queue_arguments := [("x-expires", .num (expiration + EXPIRY_GRACE_PERIOD)),
                        ("x-dead-letter-exchange", .str "")] }

/-- The transport-level outcome of one call of producer.publish inside
the inner publish function: either a ChannelError carrying a text, or a
completed publish after which the channel's returned_messages queue is
polled with get_nowait (none models the Empty case). -/
inductive AttemptOutcome where
  | channelError (text : String)
  | published (returned : Option String)
  deriving DecidableEq

/-- The failures the inner publish function can raise:
UndeliverableMessage (optionally carrying the returned message) or a
re-raised ChannelError. -/
inductive PubError where
  | undeliverable (returned : Option String)
  | channelError (text : String)
  deriving DecidableEq

/-- Whether the first character list occurs contiguously inside the
second (a substring scan). -/
def has_substr (needle : List Char) : List Char → Bool
  | [] => needle.isEmpty
  | c :: rest => needle.isPrefixOf (c :: rest) || has_substr needle rest

/-- The Python substring test NO_ROUTE in str(exc). -/
def contains_no_route (t : String) : Bool := has_substr "NO_ROUTE".toList t.toList

/-- The body of the inner publish function of republish for one attempt:
a ChannelError whose text contains NO_ROUTE becomes UndeliverableMessage
and any other ChannelError is re-raised; after a completed publish, a
pending entry in returned_messages (non-blocking get_nowait) becomes
UndeliverableMessage carrying it, while the Empty case is success. -/
def publish_attempt (o : AttemptOutcome) : Except PubError Unit :=
  match o with
  | .channelError t =>
      if contains_no_route t then .error (.undeliverable none)
      else .error (.channelError t)
  | .published (some r) => .error (.undeliverable (some r))
  | .published none => .ok ()

/-- Modelled from the spec: the retry decorator applied to the inner
publish function (nameko.utils.retry, external infrastructure not under
src/) is a bounded retry specifically on UndeliverableMessage.  Here
retries is the number of additional attempts after the first: an
attempt that fails with UndeliverableMessage is retried while budget
remains, any other failure propagates at once, and the final
UndeliverableMessage propagates when the budget is exhausted.  The
result also carries the number of publish attempts made. -/
def retryRun (outcomes : ℕ → AttemptOutcome) : ℕ → ℕ → Except PubError Unit × ℕ
  | i, 0 => (publish_attempt (outcomes i), 1)
  | i, n + 1 =>
    match publish_attempt (outcomes i) with
    | .ok _ => (.ok (), 1)
    | .error (.undeliverable _) =>
        let r := retryRun outcomes (i + 1) n
        (r.1, r.2 + 1)
    | .error e => (.error e, 1)

/-- An entity of the declare-before-publish list. -/
inductive DeclEntity where
  | exchange (e : ExchangeDef)
  | queue (q : QueueDef)
  deriving DecidableEq

/-- The arguments of one producer.publish call inside republish. -/
structure PublishCall where
  body : String
  headers : Headers
  exchange : ExchangeDef
  routing_key : String
  expiration : ℕ
  mandatory : Bool
  declare : List DeclEntity
  properties : List (String × String)
  deriving DecidableEq

/-- A broker-visible operation performed by republish. -/
inductive BrokerOp where
  | declare (q : QueueDef)
  | publish (pc : PublishCall)
  deriving DecidableEq

/-- Whether a broker operation is a publish. -/
def is_publish_op : BrokerOp → Bool
  | .publish _ => true
  | .declare _ => false

/-- The failures republish can raise. -/
inductive RepubError where
  | expired (e : ExpiredInfo)
  | publishFailed (e : PubError)
  deriving DecidableEq

deriving instance DecidableEq for Except

/-- The observable outcome of one republish call: its result, the
broker operations it performed in order, the Backoff instance state
after the call, and the state of the original message object after the
call. -/
structure RepublishResult where
  result : Except RepubError Unit
  ops : List BrokerOp
  backoff_state : BackoffState
  message : Message
  deriving DecidableEq

/-- BackoffPublisher.republish: ask backoff_exc.next for the expiration
(an Expired error propagates with no broker interaction); build the
delay queue; copy the properties and pop application_headers out of the
copy — dict.copy() is shallow, so the popped headers dict is the very
dict of the original message, and setting its backoff key writes
through to the original message — declare the queue, then run the
retry-wrapped publish with the original body, the shared backoff
exchange, the original target queue as routing key, the expiration
(expiration_seconds = float(expiration)), the mandatory flag, the
updated headers, the remaining properties, and declare-before-publish
of the queue's exchange and the queue. -/
def BackoffPublisher.republish (p : BackoffPolicy) (sample : ℚ) (st : BackoffState)
    (msg : Message) (target_queue : String) (retries : ℕ)
    (outcomes : ℕ → AttemptOutcome) : RepublishResult :=
  match Backoff.next p sample st msg BackoffPublisher.exchange.name with
  | .error e => ⟨.error (.expired e), [], st, msg⟩
  | .ok (expiration, st') =>
    let queue := BackoffPublisher.make_queue expiration
    let headers : Headers :=
      { msg.properties.application_headers with backoff := some expiration }
    let msgAfter : Message :=
      { msg with properties := { msg.properties with application_headers := headers } }
    let pc : PublishCall :=
      { body := msg.body
        headers := headers
        exchange := BackoffPublisher.exchange
        routing_key := target_queue
        expiration := expiration
        mandatory := true
        declare := [.exchange queue.exchange, .queue queue]
        properties := msg.properties.rest }
    let run := retryRun outcomes 0 retries
    ⟨run.1.mapError .publishFailed,
     .declare queue :: List.replicate run.2 (.publish pc),
     st', msgAfter⟩

/-- A sequence of calls of Backoff.next on one instance, threading the
instance state; each call is given by its Gaussian sample, message and
backoff exchange name. -/
def Backoff.run_calls (p : BackoffPolicy) (st : BackoffState) :
    List (ℚ × Message × String) → BackoffState
  | [] => st
  | c :: rest => Backoff.run_calls p (Backoff.next_state p c.1 st c.2.1 c.2.2) rest

/-- A message with no x-death history. -/
def msg_nohist : Message := ⟨"b", ⟨⟨none, none, []⟩, []⟩⟩

/-- A message whose history records two attempts on the backoff
exchange. -/
def msg_two_attempts : Message := ⟨"b", ⟨⟨some [⟨"backoff", 2⟩], none, []⟩, []⟩⟩

/-- A jitter-free two-step policy. -/
def policy_plain : BackoffPolicy := ⟨[10000, 20000], 200, 0, 5⟩

/-- A jitter-free policy with limit 2. -/
def policy_limited : BackoffPolicy := ⟨[10], 2, 0, 5⟩

/-- A policy whose group count does not divide its sigma. -/
def policy_irregular : BackoffPolicy := ⟨[10000], 0, 10, 3⟩

lemma total_attempts_foldl (name : String) (l : List DeathRecord) :
    ∀ acc : ℕ,
      l.foldl (fun a r => if r.exchange = name then a + r.count else a) acc
        = acc + ((l.filter (fun r => r.exchange == name)).map DeathRecord.count).sum := by
  induction l with
  | nil => intro acc; simp
  | cons r t ih =>
    intro acc
    by_cases h : r.exchange = name
    · simp [List.foldl_cons, List.filter_cons, h, ih]
      omega
    · simp [List.foldl_cons, List.filter_cons, h, ih]

/-- C1: Backoff.next computes the total attempt count as the sum of the
count fields of exactly those x-death records whose exchange equals the
backoff exchange name; records naming another exchange contribute
nothing, and an absent or empty history yields 0.  The count is what
next stores as _total_attempts on success. -/
theorem C1_attempt_counting (msg : Message) (name : String) :
    Backoff.total_attempts msg name
        = (((msg.headers.xdeath.getD []).filter
              (fun r => r.exchange == name)).map DeathRecord.count).sum
    ∧ (msg.headers.xdeath = none → Backoff.total_attempts msg name = 0)
    ∧ (msg.headers.xdeath = some [] → Backoff.total_attempts msg name = 0)
    ∧ (∀ (p : BackoffPolicy) (sample : ℚ) (st : BackoffState) (d : ℕ)
         (st' : BackoffState),
        Backoff.next p sample st msg name = .ok (d, st') →
        st'.total_attempts = some (Backoff.total_attempts msg name)) := by
  refine ⟨?_, ?_, ?_, ?_⟩
  · unfold Backoff.total_attempts
    rw [total_attempts_foldl]
    omega
  · intro h
    unfold Backoff.total_attempts
    rw [h]
    simp
  · intro h
    unfold Backoff.total_attempts
    rw [h]
    simp
  · intro p sample st d st' h
    unfold Backoff.next at h
    split at h
    · exact absurd h (by simp)
    · injection h with h1
      injection h1 with h2 h3
      rw [← h3]

/-- C1 witness: a concrete history with records for two exchanges and an
absent-history message, evaluated through the theorem. -/
theorem C1_attempt_counting_witness :
    (Backoff.total_attempts
        ⟨"b", ⟨⟨some [⟨"backoff", 2⟩, ⟨"other", 5⟩, ⟨"backoff", 1⟩], none, []⟩, []⟩⟩
        "backoff"
      = (((some [DeathRecord.mk "backoff" 2, ⟨"other", 5⟩, ⟨"backoff", 1⟩]
            |>.getD []).filter (fun r => r.exchange == "backoff")).map
            DeathRecord.count).sum)
    ∧ Backoff.total_attempts ⟨"b", ⟨⟨none, none, []⟩, []⟩⟩ "backoff" = 0 := by
  constructor
  · exact (C1_attempt_counting
      ⟨"b", ⟨⟨some [⟨"backoff", 2⟩, ⟨"other", 5⟩, ⟨"backoff", 1⟩], none, []⟩, []⟩⟩
      "backoff").1
  · exact (C1_attempt_counting ⟨"b", ⟨⟨none, none, []⟩, []⟩⟩ "backoff").2.1 rfl

/-- C3: for a non-empty schedule, get_next_schedule_item returns the
indexed element below the length and the last element from the length
on (the clamping law used by next for the base delay). -/
theorem C3_schedule_clamp (p : BackoffPolicy) (hne : p.schedule ≠ [])
    (index : ℕ) :
    (∀ h : index < p.schedule.length,
        Backoff.get_next_schedule_item p index = p.schedule.get ⟨index, h⟩)
    ∧ (p.schedule.length ≤ index →
        Backoff.get_next_schedule_item p index = p.schedule.getLast hne) := by
  constructor
  · intro h
    unfold Backoff.get_next_schedule_item
    rw [if_neg (by omega)]
    simp [List.getD_eq_getElem?_getD, List.getElem?_eq_getElem h,
      List.get_eq_getElem]
  · intro h
    unfold Backoff.get_next_schedule_item
    rw [if_pos h]
    simp [List.getLastD_eq_getLast?, List.getLast?_eq_getLast_of_ne_nil hne]

/-- C3 witness: the clamping law evaluated on a concrete schedule at an
in-range index and at an out-of-range index. -/
theorem C3_schedule_clamp_witness :
    (Backoff.get_next_schedule_item ⟨[10, 20], 0, 0, 5⟩ 1
        = List.get ([10, 20] : List ℕ) ⟨1, by decide⟩)
    ∧ Backoff.get_next_schedule_item ⟨[10, 20], 0, 0, 5⟩ 7
        = List.getLast ([10, 20] : List ℕ) (by decide) := by
  constructor
  · exact (C3_schedule_clamp ⟨[10, 20], 0, 0, 5⟩ (by decide) 1).1 (by decide)
  · exact (C3_schedule_clamp ⟨[10, 20], 0, 0, 5⟩ (by decide) 7).2 (by decide)

/-- C6: make_queue builds the queue named backoff--dms for delay d,
bound to the shared headers exchange named backoff with binding
arguments backoff = d and x-match = any, and with queue arguments
x-expires = d + 50000 and x-dead-letter-exchange the empty string; at
d = 30000 the name is backoff--30000ms and x-expires is 80000. -/
theorem C6_make_queue :
    (∀ d : ℕ, BackoffPublisher.make_queue d =
      { name := "backoff--" ++ toString d ++ "ms"
        exchange := ⟨"headers", "backoff"⟩
        binding_arguments := [("backoff", .num d), ("x-match", .str "any")]
        queue_arguments := [("x-expires", .num (d + 50000)),
                            ("x-dead-letter-exchange", .str "")] })
    ∧ (BackoffPublisher.make_queue 30000).name = "backoff--30000ms"
    ∧ (BackoffPublisher.make_queue 30000).queue_arguments
        = [("x-expires", .num 80000), ("x-dead-letter-exchange", .str "")] := by
  refine ⟨fun d => rfl, by decide, by decide⟩

/-- C2: Backoff.next raises Expired exactly when a non-zero limit is
reached by the matching attempt count (limit 0 is unlimited); the error
carries the triggering instance as its cause, and its message states the
limit and the maximum total wait in seconds, the sum of
get_next_schedule_item(i) for i in range(limit). -/
theorem C2_expired_ceiling (p : BackoffPolicy) (hne : p.schedule ≠ [])
    (sample : ℚ) (st : BackoffState) (msg : Message) (name : String) :
    ((∃ e, Backoff.next p sample st msg name = .error e)
        ↔ (p.limit ≠ 0 ∧ p.limit ≤ Backoff.total_attempts msg name))
    ∧ (∀ e, Backoff.next p sample st msg name = .error e →
        e.cause_policy = p ∧ e.cause_state = st ∧
          e.message = "Backoff aborted after \x27" ++ toString p.limit
            ++ "\x27 retries (~"
            ++ toString (pyRound
                ((((List.range p.limit).map
                    (Backoff.get_next_schedule_item p)).sum : ℚ) / 1000))
            ++ " seconds)") := by
  constructor
  · constructor
    · rintro ⟨e, he⟩
      unfold Backoff.next at he
      split at he
      · assumption
      · exact absurd he (by simp)
    · intro hcond
      refine ⟨⟨Backoff.expired_message p, p, st⟩, ?_⟩
      unfold Backoff.next
      rw [if_pos hcond]
  · intro e he
    unfold Backoff.next at he
    split at he
    · injection he with h1
      subst h1
      exact ⟨rfl, rfl, by unfold Backoff.expired_message Backoff.max_delay; rfl⟩
    · exact absurd he (by simp)

/-- C2 witness: with limit 2 and a history of two matching attempts the
theorem yields the Expired error. -/
theorem C2_expired_ceiling_witness :
    ∃ e, Backoff.next policy_limited 0 Backoff.init_state msg_two_attempts
          "backoff" = .error e :=
  ((C2_expired_ceiling policy_limited (by decide) 0 Backoff.init_state
      msg_two_attempts "backoff").1).mpr (by decide)

/-- C5: when next raises Expired, republish propagates it unchanged,
performs no broker operation (no queue declared, no publish attempted),
leaves the instance state alone and leaves the message alone. -/
theorem C5_expired_no_broker_interaction (p : BackoffPolicy) (sample : ℚ)
    (st : BackoffState) (msg : Message) (tq : String) (retries : ℕ)
    (outcomes : ℕ → AttemptOutcome) (e : ExpiredInfo)
    (h : Backoff.next p sample st msg BackoffPublisher.exchange.name = .error e) :
    BackoffPublisher.republish p sample st msg tq retries outcomes
      = ⟨.error (.expired e), [], st, msg⟩ := by
  unfold BackoffPublisher.republish
  rw [h]

/-- C5 witness: the Expired path of republish on a concrete limited
policy and exhausted history. -/
theorem C5_expired_no_broker_interaction_witness :
    BackoffPublisher.republish policy_limited 0 Backoff.init_state
        msg_two_attempts "q" 0 (fun _ => .published none)
      = ⟨.error (.expired ⟨Backoff.expired_message policy_limited,
          policy_limited, Backoff.init_state⟩), [], Backoff.init_state,
          msg_two_attempts⟩ :=
  C5_expired_no_broker_interaction policy_limited 0 Backoff.init_state
    msg_two_attempts "q" 0 (fun _ => .published none)
    ⟨Backoff.expired_message policy_limited, policy_limited, Backoff.init_state⟩
    rfl

lemma run_calls_stays (p : BackoffPolicy) (calls : List (ℚ × Message × String))
    (h : ∀ c ∈ calls, ∀ s : BackoffState,
        ∃ e, Backoff.next p c.1 s c.2.1 c.2.2 = .error e) :
    ∀ st : BackoffState, Backoff.run_calls p st calls = st := by
  induction calls with
  | nil => intro st; rfl
  | cons c t ih =>
    intro st
    obtain ⟨e, he⟩ := h c (by simp) st
    unfold Backoff.run_calls
    rw [show Backoff.next_state p c.1 st c.2.1 c.2.2 = st by
      unfold Backoff.next_state; rw [he]]
    exact ih (fun c hc s => h c (by simp [hc]) s) st

/-- C10: a call of next that raises Expired leaves the recorded
diagnostic state unchanged; an instance on which next never returned
successfully still renders as the uninitialised state; after a
successful call returning delay d with attempt count n the instance
renders as retry number n+1 in d ms. -/
theorem C10_diagnostic_state (p : BackoffPolicy) :
    (∀ (sample : ℚ) (st : BackoffState) (msg : Message) (name : String)
       (e : ExpiredInfo),
        Backoff.next p sample st msg name = .error e →
        Backoff.next_state p sample st msg name = st)
    ∧ Backoff.str Backoff.init_state = "Backoff(uninitialised)"
    ∧ (∀ calls : List (ℚ × Message × String),
        (∀ c ∈ calls, ∀ s : BackoffState,
            ∃ e, Backoff.next p c.1 s c.2.1 c.2.2 = .error e) →
        Backoff.str (Backoff.run_calls p Backoff.init_state calls)
          = "Backoff(uninitialised)")
    ∧ (∀ (sample : ℚ) (msg : Message) (name : String) (d : ℕ)
         (st' : BackoffState),
        Backoff.next p sample Backoff.init_state msg name = .ok (d, st') →
        Backoff.str st' = "Backoff(" ++ ("retry #"
          ++ toString (Backoff.total_attempts msg name + 1) ++ " in "
          ++ toString d ++ "ms") ++ ")") := by
  refine ⟨?_, rfl, ?_, ?_⟩
  · intro sample st msg name e h
    unfold Backoff.next_state
    rw [h]
  · intro calls h
    rw [run_calls_stays p calls h]
    rfl
  · intro sample msg name d st' h
    unfold Backoff.next at h
    split at h
    · exact absurd h (by simp)
    · injection h with h1
      injection h1 with h2 h3
      subst h2
      subst h3
      rfl

/-- C10 witness: the Expired path leaves a concrete instance state in
place, and concrete renderings before and after a successful call. -/
theorem C10_diagnostic_state_witness :
    Backoff.next_state policy_limited 0 Backoff.init_state msg_two_attempts
        "backoff" = Backoff.init_state
    ∧ Backoff.str Backoff.init_state = "Backoff(uninitialised)"
    ∧ Backoff.str ⟨some 0, some 10000⟩ = "Backoff(retry #1 in 10000ms)" := by
  refine ⟨?_, (C10_diagnostic_state policy_limited).2.1, by decide⟩
  exact (C10_diagnostic_state policy_limited).1 0 Backoff.init_state
    msg_two_attempts "backoff"
    ⟨Backoff.expired_message policy_limited, policy_limited, Backoff.init_state⟩
    rfl

lemma retryRun_snd_pos (outcomes : ℕ → AttemptOutcome) (i n : ℕ) :
    1 ≤ (retryRun outcomes i n).2 := by
  cases n with
  | zero => simp [retryRun]
  | succ n =>
    unfold retryRun
    rcases h : publish_attempt (outcomes i) with e | _
    · cases e <;> simp [h]
    · simp [h]

/-- C7: on the success path republish publishes the original body with
the shared backoff exchange, the original target queue as routing key,
the mandatory flag, a per-message expiration equal to the computed
delay, outgoing headers carrying backoff = the delay, and a
declare-before-publish list of the delay queue and its exchange. -/
theorem C7_publish_call_fields (p : BackoffPolicy) (hne : p.schedule ≠ [])
    (sample : ℚ) (st : BackoffState) (msg : Message) (tq : String)
    (retries : ℕ) (outcomes : ℕ → AttemptOutcome) (d : ℕ) (st' : BackoffState)
    (hn : Backoff.next p sample st msg BackoffPublisher.exchange.name
        = .ok (d, st'))
    (hok : (BackoffPublisher.republish p sample st msg tq retries
        outcomes).result = .ok ()) :
    (∃ pc, BrokerOp.publish pc
        ∈ (BackoffPublisher.republish p sample st msg tq retries outcomes).ops)
    ∧ ∀ pc, BrokerOp.publish pc
        ∈ (BackoffPublisher.republish p sample st msg tq retries outcomes).ops →
        pc.body = msg.body ∧ pc.exchange = BackoffPublisher.exchange
          ∧ pc.routing_key = tq ∧ pc.mandatory = true ∧ pc.expiration = d
          ∧ pc.headers.backoff = some d
          ∧ pc.declare = [.exchange BackoffPublisher.exchange,
              .queue (BackoffPublisher.make_queue d)] := by
  unfold BackoffPublisher.republish
  rw [hn]
  constructor
  · exact ⟨_, List.mem_cons_of_mem _ (List.mem_replicate.mpr
      ⟨by have := retryRun_snd_pos outcomes 0 retries; omega, rfl⟩)⟩
  · intro pc hmem
    rcases List.mem_cons.mp hmem with hd | hre
    · exact absurd hd (by simp)
    · have := List.eq_of_mem_replicate hre
      injection this with h1
      subst h1
      exact ⟨rfl, rfl, rfl, rfl, rfl, rfl, rfl⟩

/-- C7 witness: the publish-call fields on a concrete jitter-free
policy, empty history and immediately successful publish. -/
theorem C7_publish_call_fields_witness :
    (∃ pc, BrokerOp.publish pc
        ∈ (BackoffPublisher.republish policy_plain 0 Backoff.init_state
            msg_nohist "q" 0 (fun _ => .published none)).ops)
    ∧ ∀ pc, BrokerOp.publish pc
        ∈ (BackoffPublisher.republish policy_plain 0 Backoff.init_state
            msg_nohist "q" 0 (fun _ => .published none)).ops →
        pc.body = msg_nohist.body ∧ pc.exchange = BackoffPublisher.exchange
          ∧ pc.routing_key = "q" ∧ pc.mandatory = true ∧ pc.expiration = 10000
          ∧ pc.headers.backoff = some 10000
          ∧ pc.declare = [.exchange BackoffPublisher.exchange,
              .queue (BackoffPublisher.make_queue 10000)] :=
  C7_publish_call_fields policy_plain (by decide) 0 Backoff.init_state
    msg_nohist "q" 0 (fun _ => .published none) 10000 ⟨some 0, some 10000⟩
    (by decide) (by decide)

/-- C8 counterexample: the claim says the original message's own
properties and headers are left unchanged by republish, but
properties.copy() is a shallow copy, so setting the backoff key on the
popped headers dict writes through to the original message: on a
concrete success-path call the original message object has changed. -/
theorem C8_original_message_mutated :
    (BackoffPublisher.republish policy_plain 0 Backoff.init_state msg_nohist
        "q" 0 (fun _ => .published none)).message ≠ msg_nohist := by
  decide

/-- C8 amended: the outgoing properties are a copy of the original
message's properties in which only the backoff header is overwritten
with the computed delay, preserving the x-death history, all other
headers and all other properties; the original message's top-level
properties keep their other entries and the body is untouched, but the
headers dict is shared with the outgoing message (shallow copy), so
after the call the original message's application_headers equally
carry backoff = the computed delay. -/
theorem C8_properties_copy (p : BackoffPolicy) (hne : p.schedule ≠ [])
    (sample : ℚ) (st : BackoffState) (msg : Message) (tq : String)
    (retries : ℕ) (outcomes : ℕ → AttemptOutcome) (d : ℕ) (st' : BackoffState)
    (hn : Backoff.next p sample st msg BackoffPublisher.exchange.name
        = .ok (d, st')) :
    (∀ pc, BrokerOp.publish pc
        ∈ (BackoffPublisher.republish p sample st msg tq retries outcomes).ops →
        pc.headers = { msg.properties.application_headers with backoff := some d }
          ∧ pc.headers.xdeath = msg.headers.xdeath
          ∧ pc.headers.others = msg.headers.others
          ∧ pc.properties = msg.properties.rest)
    ∧ (BackoffPublisher.republish p sample st msg tq retries
        outcomes).message.properties.rest = msg.properties.rest
    ∧ (BackoffPublisher.republish p sample st msg tq retries
        outcomes).message.body = msg.body
    ∧ (BackoffPublisher.republish p sample st msg tq retries
        outcomes).message.properties.application_headers
        = { msg.properties.application_headers with backoff := some d } := by
  unfold BackoffPublisher.republish
  rw [hn]
  refine ⟨?_, rfl, rfl, rfl⟩
  intro pc hmem
  rcases List.mem_cons.mp hmem with hd | hre
  · exact absurd hd (by simp)
  · have := List.eq_of_mem_replicate hre
    injection this with h1
    subst h1
    exact ⟨rfl, rfl, rfl, rfl⟩

/-- C8 witness: the amended statement on a concrete success-path
call. -/
theorem C8_properties_copy_witness :
    (∀ pc, BrokerOp.publish pc
        ∈ (BackoffPublisher.republish policy_plain 0 Backoff.init_state
            msg_nohist "q" 0 (fun _ => .published none)).ops →
        pc.headers
            = { msg_nohist.properties.application_headers with
                backoff := some 10000 }
          ∧ pc.headers.xdeath = msg_nohist.headers.xdeath
          ∧ pc.headers.others = msg_nohist.headers.others
          ∧ pc.properties = msg_nohist.properties.rest)
    ∧ (BackoffPublisher.republish policy_plain 0 Backoff.init_state msg_nohist
        "q" 0 (fun _ => .published none)).message.properties.rest
        = msg_nohist.properties.rest
    ∧ (BackoffPublisher.republish policy_plain 0 Backoff.init_state msg_nohist
        "q" 0 (fun _ => .published none)).message.body = msg_nohist.body
    ∧ (BackoffPublisher.republish policy_plain 0 Backoff.init_state msg_nohist
        "q" 0 (fun _ => .published none)).message.properties.application_headers
        = { msg_nohist.properties.application_headers with
            backoff := some 10000 } :=
  C8_properties_copy policy_plain (by decide) 0 Backoff.init_state msg_nohist
    "q" 0 (fun _ => .published none) 10000 ⟨some 0, some 10000⟩ (by decide)

lemma retryRun_all_undeliverable (outcomes : ℕ → AttemptOutcome) :
    ∀ n i, (∀ j, ∃ r, publish_attempt (outcomes j) = .error (.undeliverable r)) →
      ∃ r, retryRun outcomes i n = (.error (.undeliverable r), n + 1) := by
  intro n
  induction n with
  | zero =>
    intro i h
    obtain ⟨r, hr⟩ := h i
    exact ⟨r, by simp [retryRun, hr]⟩
  | succ n ih =>
    intro i h
    obtain ⟨r, hr⟩ := h i
    obtain ⟨r2, h2⟩ := ih (i + 1) h
    exact ⟨r2, by simp [retryRun, hr, h2]⟩

lemma countP_publish_replicate (pc : PublishCall) (n : ℕ) :
    (List.replicate n (BrokerOp.publish pc)).countP is_publish_op = n := by
  induction n with
  | zero => rfl
  | succ n ih => simp [List.replicate_succ, List.countP_cons, ih, is_publish_op]

/-- C9: a channel-level NO_ROUTE error and a pending returned-message
notification are each normalised into UndeliverableMessage while an
empty poll is success; the publish-and-check sequence is retried on
UndeliverableMessage, so one undeliverable outcome followed by a
success makes republish succeed with exactly two publish attempts, and
when every attempt is undeliverable the UndeliverableMessage propagates
after retries plus one attempts. -/
theorem C9_undeliverable_retry (p : BackoffPolicy) (hne : p.schedule ≠ [])
    (sample : ℚ) (st : BackoffState) (msg : Message) (tq : String)
    (retries : ℕ) (outcomes : ℕ → AttemptOutcome) (d : ℕ) (st' : BackoffState)
    (hn : Backoff.next p sample st msg BackoffPublisher.exchange.name
        = .ok (d, st')) :
    (∀ t, contains_no_route t = true →
        publish_attempt (.channelError t) = .error (.undeliverable none))
    ∧ (∀ s, publish_attempt (.published (some s))
        = .error (.undeliverable (some s)))
    ∧ publish_attempt (.published none) = .ok ()
    ∧ (∀ r0, 1 ≤ retries →
        publish_attempt (outcomes 0) = .error (.undeliverable r0) →
        publish_attempt (outcomes 1) = .ok () →
        (BackoffPublisher.republish p sample st msg tq retries outcomes).result
            = .ok ()
        ∧ (BackoffPublisher.republish p sample st msg tq retries
            outcomes).ops.countP is_publish_op = 2)
    ∧ ((∀ j, ∃ r, publish_attempt (outcomes j) = .error (.undeliverable r)) →
        ∃ r, (BackoffPublisher.republish p sample st msg tq retries
              outcomes).result = .error (.publishFailed (.undeliverable r))
          ∧ (BackoffPublisher.republish p sample st msg tq retries
              outcomes).ops.countP is_publish_op = retries + 1) := by
  refine ⟨?_, fun s => rfl, rfl, ?_, ?_⟩
  · intro t h
    simp [publish_attempt, h]
  · intro r0 hr h0 h1
    have hrun : retryRun outcomes 0 retries = (.ok (), 2) := by
      cases retries with
      | zero => omega
      | succ m =>
        cases m with
        | zero => simp [retryRun, h0, h1]
        | succ k => simp [retryRun, h0, h1]
    unfold BackoffPublisher.republish
    rw [hn]
    simp [hrun, List.countP_cons, countP_publish_replicate, is_publish_op,
      Except.mapError]
  · intro hall
    obtain ⟨r, hrun⟩ := retryRun_all_undeliverable outcomes retries 0 hall
    refine ⟨r, ?_, ?_⟩
    · unfold BackoffPublisher.republish
      rw [hn]
      simp [hrun, Except.mapError]
    · unfold BackoffPublisher.republish
      rw [hn]
      simp [hrun, List.countP_cons, countP_publish_replicate, is_publish_op]

/-- C9 witness: one NO_ROUTE outcome then a clean publish on a concrete
policy: republish succeeds with the publish attempted exactly twice;
and with every outcome returned, the failure propagates. -/
theorem C9_undeliverable_retry_witness :
    ((BackoffPublisher.republish policy_plain 0 Backoff.init_state msg_nohist
        "q" 1 (fun i => if i = 0 then .channelError "NO_ROUTE" else
          .published none)).result = .ok ()
    ∧ (BackoffPublisher.republish policy_plain 0 Backoff.init_state msg_nohist
        "q" 1 (fun i => if i = 0 then .channelError "NO_ROUTE" else
          .published none)).ops.countP is_publish_op = 2)
    ∧ (∃ r, (BackoffPublisher.republish policy_plain 0 Backoff.init_state
          msg_nohist "q" 1 (fun _ => .published (some "ret"))).result
          = .error (.publishFailed (.undeliverable r))
        ∧ (BackoffPublisher.republish policy_plain 0 Backoff.init_state
            msg_nohist "q" 1 (fun _ => .published (some "ret"))).ops.countP
            is_publish_op = 1 + 1) :=
  ⟨(C9_undeliverable_retry policy_plain (by decide) 0 Backoff.init_state
      msg_nohist "q" 1
      (fun i => if i = 0 then .channelError "NO_ROUTE" else .published none)
      10000 ⟨some 0, some 10000⟩ (by decide)).2.2.2.1 none (by decide)
      (by decide) (by decide),
   (C9_undeliverable_retry policy_plain (by decide) 0 Backoff.init_state
      msg_nohist "q" 1 (fun _ => .published (some "ret")) 10000
      ⟨some 0, some 10000⟩ (by decide)).2.2.2.2
      (fun j => ⟨some "ret", rfl⟩)⟩

lemma ratTrunc_intCast (z : ℤ) : ratTrunc (z : ℚ) = z := by
  unfold ratTrunc
  split
  · exact Int.floor_intCast z
  · rw [show (-(z : ℚ)) = ((-z : ℤ) : ℚ) by push_cast; ring, Int.floor_intCast]
    ring

lemma round_to_nearest_natCast_mul (v : ℤ) (m : ℕ) :
    ∃ k : ℕ, ((round_to_nearest v (m : ℚ)).natAbs : ℚ) = k * (m : ℚ) := by
  unfold round_to_nearest
  refine ⟨(pyRound ((v : ℚ) / (m : ℚ))).natAbs, ?_⟩
  rw [show ((m : ℚ)) * ((pyRound ((v : ℚ) / (m : ℚ)) : ℤ) : ℚ)
      = (((m : ℤ) * pyRound ((v : ℚ) / (m : ℚ)) : ℤ) : ℚ) by push_cast; ring]
  rw [ratTrunc_intCast, Int.natAbs_mul]
  push_cast [Int.natAbs_ofNat]
  ring

/-- C4 (amended): below the retry ceiling, with random_sigma = 0 next
returns exactly the unjittered schedule element; with random_sigma > 0
and the group count dividing sigma (as with the defaults 100 and 5),
the returned delay is non-negative (it is a natural number here, by the
final abs()) and an integer multiple of
random_sigma / random_groups_per_sigma, for every Gaussian sample. -/
theorem C4_jitter_multiple (p : BackoffPolicy) (hne : p.schedule ≠ [])
    (sample : ℚ) (st : BackoffState) (msg : Message) (name : String)
    (d : ℕ) (st' : BackoffState)
    (hdvd : p.random_groups_per_sigma ∣ p.random_sigma)
    (hn : Backoff.next p sample st msg name = .ok (d, st')) :
    (p.random_sigma = 0 →
        d = Backoff.get_next_schedule_item p (Backoff.total_attempts msg name))
    ∧ (p.random_sigma ≠ 0 → ∃ k : ℕ,
        (d : ℚ) = k * ((p.random_sigma : ℚ)
          / (p.random_groups_per_sigma : ℚ))) := by
  have hd : d = Backoff.next_value p sample msg name := by
    unfold Backoff.next at hn
    split at hn
    · exact absurd hn (by simp)
    · injection hn with h1
      injection h1 with h2 h3
      exact h2.symm
  subst hd
  constructor
  · intro h0
    unfold Backoff.next_value
    rw [if_neg (by simp [h0])]
    exact Int.natAbs_ofNat _
  · intro hs
    have hγ : p.random_groups_per_sigma ≠ 0 := by
      rintro h0
      rw [h0] at hdvd
      exact hs (Nat.eq_zero_of_zero_dvd hdvd)
    have hcast : ((p.random_sigma / p.random_groups_per_sigma : ℕ) : ℚ)
        = (p.random_sigma : ℚ) / (p.random_groups_per_sigma : ℚ) :=
      Nat.cast_div hdvd (Nat.cast_ne_zero.mpr hγ)
    unfold Backoff.next_value
    rw [if_pos hs, ← hcast]
    exact round_to_nearest_natCast_mul (ratTrunc sample)
      (p.random_sigma / p.random_groups_per_sigma)

/-- C4 witness: the default policy (sigma 100, five groups per sigma)
at a concrete Gaussian sample, through the theorem. -/
theorem C4_jitter_multiple_witness :
    (Backoff.default_policy.random_sigma = 0 →
        Backoff.next_value Backoff.default_policy 10050 msg_nohist "backoff"
          = Backoff.get_next_schedule_item Backoff.default_policy
              (Backoff.total_attempts msg_nohist "backoff"))
    ∧ (Backoff.default_policy.random_sigma ≠ 0 → ∃ k : ℕ,
        ((Backoff.next_value Backoff.default_policy 10050 msg_nohist
            "backoff" : ℕ) : ℚ)
          = k * ((Backoff.default_policy.random_sigma : ℚ)
              / (Backoff.default_policy.random_groups_per_sigma : ℚ))) :=
  C4_jitter_multiple Backoff.default_policy (by decide) 10050
    Backoff.init_state msg_nohist "backoff"
    (Backoff.next_value Backoff.default_policy 10050 msg_nohist "backoff")
    ⟨some (Backoff.total_attempts msg_nohist "backoff"),
     some (Backoff.next_value Backoff.default_policy 10050 msg_nohist
        "backoff")⟩
    ⟨20, by decide⟩ rfl

/-- C4 counterexample: the claim as stated quantifies over every policy,
but with sigma 10 and three groups per sigma (so a non-integer group
size 10/3) the computed delay 10003 at sample 10003 is not an integer
multiple of sigma divided by groups: the float group size is truncated
away by the final int() conversion of round_to_nearest. -/
theorem C4_not_multiple_for_irregular_policy :
    Backoff.next policy_irregular 10003 Backoff.init_state msg_nohist
        "backoff" = .ok (10003, ⟨some 0, some 10003⟩)
    ∧ ¬ ∃ k : ℤ, ((10003 : ℕ) : ℚ)
        = k * ((policy_irregular.random_sigma : ℚ)
            / (policy_irregular.random_groups_per_sigma : ℚ)) := by
  constructor
  · have hs : ratTrunc (10003 : ℚ) = 10003 := by
      rw [show ((10003 : ℚ)) = ((10003 : ℤ) : ℚ) by norm_num]
      exact ratTrunc_intCast 10003
    have hdiv : ((10003 : ℤ) : ℚ)
        / ((policy_irregular.random_sigma : ℚ)
            / (policy_irregular.random_groups_per_sigma : ℚ))
        = 30009 / 10 := by
      norm_num [policy_irregular]
    have hfl : (⌊(30009 / 10 : ℚ)⌋ : ℤ) = 3000 := by
      apply Int.floor_eq_iff.mpr
      constructor <;> norm_num
    have hpy : pyRound (30009 / 10 : ℚ) = 3001 := by
      unfold pyRound
      rw [hfl]
      norm_num
    have hrt : round_to_nearest 10003
        ((policy_irregular.random_sigma : ℚ)
          / (policy_irregular.random_groups_per_sigma : ℚ)) = 10003 := by
      unfold round_to_nearest
      rw [hdiv, hpy]
      have hmul : ((policy_irregular.random_sigma : ℚ)
          / (policy_irregular.random_groups_per_sigma : ℚ))
          * ((3001 : ℤ) : ℚ) = 30010 / 3 := by
        norm_num [policy_irregular]
      rw [hmul]
      unfold ratTrunc
      rw [if_pos (by norm_num)]
      apply Int.floor_eq_iff.mpr
      constructor <;> norm_num
    have hv : Backoff.next_value policy_irregular 10003 msg_nohist "backoff"
        = 10003 := by
      unfold Backoff.next_value
      rw [if_pos (by decide), hs, hrt]
      rfl
    unfold Backoff.next
    rw [if_neg (by decide)]
    rw [hv]
    rfl
  · rintro ⟨k, hk⟩
    have hk' : ((10003 : ℚ)) = k * (10 / 3) := by
      rw [show ((policy_irregular.random_sigma : ℚ)
          / (policy_irregular.random_groups_per_sigma : ℚ)) = 10 / 3 by
        norm_num [policy_irregular]] at hk
      exact_mod_cast hk
    have h30 : (30009 : ℚ) = 10 * (k : ℚ) := by
      field_simp at hk'
      linarith
    have hz : (30009 : ℤ) = 10 * k := by exact_mod_cast h30
    omega
